import Mathlib

/-!
Verification of the CreditAI Global dynamic pricing agent
(`src/agent/pricing_agent.py`) against its design specification.

The Python code is shallowly embedded over the rationals: Python floats
become `ℚ`, dictionaries with possibly-missing keys become structures with
`Option` fields, fallible operations (key lookup, division) run in
`Except PyError`.  Python's `round(x, n)` is modelled as rounding
`x * 10^n` to the nearest integer (half-up on `ℚ`; differences to the
float implementation only arise at exact ties, which none of the proved
statements depend on).
-/

namespace CreditAI

/-- An applicant record (a Python dict); every key may be absent. -/
structure Applicant where
  id : Option String
  country : Option String
  credit_score : Option ℚ
  income : Option ℚ
  loan_amount : Option ℚ
  employment_years : Option ℚ
  existing_debt : Option ℚ
deriving Repr, DecidableEq

/-- Python-level errors the embedded code can surface.
`keyError f` models Python's built-in `KeyError(f)` from `applicant[f]`;
`zeroDivisionError` models `ZeroDivisionError`.
`missingFieldError` is Modelled from the spec: the spec's §7 error taxonomy
names a `MissingFieldError` class, which appears nowhere in the source;
it is included only so that statements about it can be expressed. -/
inductive PyError where
  | keyError (field : String)
  | missingFieldError (field : String)
  | zeroDivisionError
deriving Repr, DecidableEq

/-- `applicant[name]`: dict access, raising `KeyError(name)` when absent. -/
def getField {α : Type} (v : Option α) (name : String) : Except PyError α :=
  match v with
  | some x => .ok x
  | none => .error (.keyError name)

/-- Python division, raising `ZeroDivisionError` on a zero denominator. -/
def pydiv (a b : ℚ) : Except PyError ℚ :=
  if b = 0 then .error .zeroDivisionError else .ok (a / b)

/-- Python `round(x, n)` modelled on `ℚ`: round `x * 10^n` to the nearest
integer and scale back. -/
def pyround (x : ℚ) (n : ℕ) : ℚ :=
  ((round (x * 10 ^ n) : ℤ) : ℚ) / 10 ^ n

/-- The decision record built by `calculate_rate` (a Python dict with a
fixed key set; fields listed in insertion order). -/
structure Decision where
  timestamp : String
  applicant_id : String
  country : String
  credit_score : ℚ
  loan_amount : ℚ
  base_rate : ℚ
  risk_adjustment : ℚ
  market_adjustment : ℚ
  profit_adjustment : ℚ
  total_adjustment : ℚ
  final_rate : ℚ
  default_probability : ℚ
  expected_profit : ℚ
  reasoning : List String
deriving Repr, DecidableEq

/-- The agent configuration dict (`_default_config` key set). -/
structure Config where
  risk_weight : ℚ
  market_weight : ℚ
  profit_weight : ℚ
  learning_rate : ℚ
deriving Repr, DecidableEq

/-- `DynamicPricingAgent._default_config`. -/
def default_config : Config :=
  { risk_weight := 0.6, market_weight := 0.3, profit_weight := 0.1,
    learning_rate := 0.01 }

/-- `self.base_rates.get(country, 0.15)`: the per-country base-rate dict
with the neutral default. -/
def base_rates_get (country : String) : ℚ :=
  if country = "USA" then 0.12
  else if country = "India" then 0.18
  else 0.15

/-- `self.min_rate` (8% floor). -/
def min_rate : ℚ := 0.08

/-- `self.max_rate` (36% ceiling). -/
def max_rate : ℚ := 0.36

/-- `DynamicPricingAgent._calculate_risk_adjustment`, with the source's
field-access and division order preserved. -/
def calculate_risk_adjustment (a : Applicant) : Except PyError ℚ := do
  let credit_score ← getField a.credit_score "credit_score"
  let country ← getField a.country "country"
  let normalized_score ←
    if country = "USA" then
      pydiv (credit_score - 300) (850 - 300)
    else
      pydiv (credit_score - 300) (900 - 300)
  let income ← getField a.income "income"
  let dti ← pydiv (a.existing_debt.getD 0) (max income 1)
  let loan_amount ← getField a.loan_amount "loan_amount"
  let lti ← pydiv loan_amount (max income 1)
  let risk_score :=
    (1 - normalized_score) * 0.5 + min dti 1.0 * 0.3 + min lti 1.0 * 0.2
  return -0.03 + risk_score * 0.11

/-- `DynamicPricingAgent._calculate_market_adjustment`. -/
def calculate_market_adjustment (a : Applicant) : Except PyError ℚ := do
  let credit_score ← getField a.credit_score "credit_score"
  let country ← getField a.country "country"
  if country = "USA" then
    if credit_score ≥ 750 then return -0.02
    else if credit_score ≥ 700 then return -0.01
    else return 0.0
  else
    if credit_score ≥ 800 then return -0.02
    else if credit_score ≥ 750 then return -0.01
    else return 0.0

/-- `DynamicPricingAgent._calculate_profit_adjustment`. -/
def calculate_profit_adjustment (a : Applicant) : Except PyError ℚ := do
  let loan_amount ← getField a.loan_amount "loan_amount"
  if loan_amount ≥ 25000 then return -0.005
  else if loan_amount ≥ 15000 then return -0.0025
  else return 0.0

/-- `DynamicPricingAgent._estimate_default_probability`. -/
def estimate_default_probability (a : Applicant) : Except PyError ℚ := do
  let credit_score ← getField a.credit_score "credit_score"
  let country ← getField a.country "country"
  let normalized ←
    if country = "USA" then
      pydiv (credit_score - 300) (850 - 300)
    else
      pydiv (credit_score - 300) (900 - 300)
  let default_prob := 0.25 * (1 - normalized)
  let income ← getField a.income "income"
  let dti ← pydiv (a.existing_debt.getD 0) (max income 1)
  return min (default_prob + dti * 0.1) 0.99

/-- `DynamicPricingAgent._calculate_expected_profit`. -/
def calculate_expected_profit (loan_amount rate default_prob : ℚ) : ℚ :=
  loan_amount * rate * (1 - default_prob) - loan_amount * 0.4 * default_prob

/-- `DynamicPricingAgent._generate_reasoning` (strings copied verbatim
from the source file). -/
def generate_reasoning (risk_adj market_adj profit_adj : ℚ)
    (a : Applicant) : Except PyError (List String) := do
  let r1 : List String :=
    if risk_adj < -0.01 then
      ["‚úÖ Excellent credit profile - reduced risk premium"]
    else if risk_adj > 0.05 then
      ["‚ö†Ô∏è Higher risk profile - increased rate for protection"]
    else
      ["Standard risk assessment"]
  let r2 := r1 ++ (if market_adj < 0 then
      ["üéØ Competitive rate to win quality applicant"] else [])
  let r3 := r2 ++ (if profit_adj < 0 then
      ["üí∞ Volume discount for larger loan amount"] else [])
  let score ← getField a.credit_score "credit_score"
  let country ← getField a.country "country"
  let r4 := r3 ++
    (if country = "USA" then
      if score ≥ 750 then ["Excellent FICO score (750+)"]
      else if score < 650 then ["Below-average FICO score"]
      else []
    else
      if score ≥ 800 then ["Excellent CIBIL score (800+)"]
      else if score < 700 then ["Below-average CIBIL score"]
      else [])
  return r4

/-- `DynamicPricingAgent.calculate_rate`, without the `_log_decision`
side effect (modelled separately on the agent state).  `now` stands for
`datetime.now().isoformat()`. -/
def calculate_rate (cfg : Config) (a : Applicant) (now : String) :
    Except PyError Decision := do
  let country ← getField a.country "country"
  let base_rate := base_rates_get country
  let risk_adjustment ← calculate_risk_adjustment a
  let market_adjustment ← calculate_market_adjustment a
  let profit_adjustment ← calculate_profit_adjustment a
  let total_adjustment :=
    risk_adjustment * cfg.risk_weight +
    market_adjustment * cfg.market_weight +
    profit_adjustment * cfg.profit_weight
  let final_rate := base_rate + total_adjustment
  let final_rate := max min_rate (min max_rate final_rate)
  let default_prob ← estimate_default_probability a
  let loan_amount ← getField a.loan_amount "loan_amount"
  let expected_profit := calculate_expected_profit loan_amount final_rate default_prob
  let credit_score ← getField a.credit_score "credit_score"
  let reasoning ← generate_reasoning risk_adjustment market_adjustment
    profit_adjustment a
  return {
    timestamp := now
    applicant_id := a.id.getD "unknown"
    country := country
    credit_score := credit_score
    loan_amount := loan_amount
    base_rate := pyround base_rate 4
    risk_adjustment := pyround risk_adjustment 4
    market_adjustment := pyround market_adjustment 4
    profit_adjustment := pyround profit_adjustment 4
    total_adjustment := pyround total_adjustment 4
    final_rate := pyround final_rate 4
    default_probability := pyround default_prob 4
    expected_profit := pyround expected_profit 2
    reasoning := reasoning }

/-- `self.stats`: the running aggregate dict initialised in `__init__`
(fields in insertion order). -/
structure Stats where
  total_decisions : ℕ
  avg_adjustment : ℚ
  total_profit : ℚ
  default_rate : ℚ
deriving Repr, DecidableEq

/-- The mutable state of a `DynamicPricingAgent`. -/
structure AgentState where
  config : Config
  decision_history : List Decision
  stats : Stats
deriving Repr, DecidableEq

/-- `DynamicPricingAgent.__init__`: empty history, zeroed stats. -/
def init_state (cfg : Config) : AgentState :=
  { config := cfg
    decision_history := []
    stats := { total_decisions := 0, avg_adjustment := 0,
               total_profit := 0, default_rate := 0 } }

/-- `np.mean` on a list of rationals (only applied to non-empty lists by
the embedded code). -/
def npmean (l : List ℚ) : ℚ := l.sum / l.length

/-- `DynamicPricingAgent._log_decision`. -/
def log_decision (s : AgentState) (d : Decision) : AgentState :=
  let history := s.decision_history ++ [d]
  { s with
    decision_history := history
    stats := { s.stats with
      total_decisions := s.stats.total_decisions + 1
      avg_adjustment := npmean (history.map (fun d => d.total_adjustment))
      total_profit := s.stats.total_profit + d.expected_profit } }

/-- `DynamicPricingAgent.get_statistics`, returned as the key/value pairs
of the Python dict in insertion order.  The empty-history branch returns
`self.stats` (its four keys); the other branch computes over
`self.decision_history[-100:]`. -/
def get_statistics (s : AgentState) : List (String × ℚ) :=
  if s.decision_history = [] then
    [("total_decisions", (s.stats.total_decisions : ℚ)),
     ("avg_adjustment", s.stats.avg_adjustment),
     ("total_profit", s.stats.total_profit),
     ("default_rate", s.stats.default_rate)]
  else
    let recent := s.decision_history.drop (s.decision_history.length - 100)
    [("total_decisions", (s.stats.total_decisions : ℚ)),
     ("avg_rate_adjustment",
       pyround (npmean (recent.map (fun d => d.total_adjustment))) 4),
     ("avg_final_rate",
       pyround (npmean (recent.map (fun d => d.final_rate))) 4),
     ("total_expected_profit", pyround s.stats.total_profit 2),
     ("avg_default_probability",
       pyround (npmean (recent.map (fun d => d.default_probability))) 4)]

/-- A JSON value as it appears in the exported decision file: every field
of a decision record is a string, a number, or a list of strings. -/
inductive JField where
  | s (v : String)
  | n (v : ℚ)
  | ls (v : List String)
deriving Repr, DecidableEq

/-- What `json.dump` writes for one decision: a JSON object with the
record's keys. -/
def encodeDecision (d : Decision) : List (String × JField) :=
  [("timestamp", .s d.timestamp),
   ("applicant_id", .s d.applicant_id),
   ("country", .s d.country),
   ("credit_score", .n d.credit_score),
   ("loan_amount", .n d.loan_amount),
   ("base_rate", .n d.base_rate),
   ("risk_adjustment", .n d.risk_adjustment),
   ("market_adjustment", .n d.market_adjustment),
   ("profit_adjustment", .n d.profit_adjustment),
   ("total_adjustment", .n d.total_adjustment),
   ("final_rate", .n d.final_rate),
   ("default_probability", .n d.default_probability),
   ("expected_profit", .n d.expected_profit),
   ("reasoning", .ls d.reasoning)]

/-- Key lookup in a parsed JSON object. -/
def jlookup (j : List (String × JField)) (k : String) :
    Except String JField :=
  match j.find? (fun p => p.1 == k) with
  | some p => .ok p.2
  | none => .error k

/-- Read a string-valued key. -/
def jstr (j : List (String × JField)) (k : String) : Except String String := do
  match (← jlookup j k) with
  | .s v => .ok v
  | _ => .error k

/-- Read a number-valued key. -/
def jnum (j : List (String × JField)) (k : String) : Except String ℚ := do
  match (← jlookup j k) with
  | .n v => .ok v
  | _ => .error k

/-- Read a string-list-valued key. -/
def jstrlist (j : List (String × JField)) (k : String) :
    Except String (List String) := do
  match (← jlookup j k) with
  | .ls v => .ok v
  | _ => .error k

/-- What `json.load` reconstructs from one serialized decision object. -/
def decodeDecision (j : List (String × JField)) : Except String Decision := do
  let timestamp ← jstr j "timestamp"
  let applicant_id ← jstr j "applicant_id"
  let country ← jstr j "country"
  let credit_score ← jnum j "credit_score"
  let loan_amount ← jnum j "loan_amount"
  let base_rate ← jnum j "base_rate"
  let risk_adjustment ← jnum j "risk_adjustment"
  let market_adjustment ← jnum j "market_adjustment"
  let profit_adjustment ← jnum j "profit_adjustment"
  let total_adjustment ← jnum j "total_adjustment"
  let final_rate ← jnum j "final_rate"
  let default_probability ← jnum j "default_probability"
  let expected_profit ← jnum j "expected_profit"
  let reasoning ← jstrlist j "reasoning"
  return { timestamp, applicant_id, country, credit_score, loan_amount,
           base_rate, risk_adjustment, market_adjustment, profit_adjustment,
           total_adjustment, final_rate, default_probability,
           expected_profit, reasoning }

/-- Parse the whole exported file (a JSON array of decision objects);
`json.load` fails on the first malformed element and returns nothing. -/
def decodeDecisionList (data : List (List (String × JField))) :
    Except String (List Decision) :=
  match data with
  | [] => .ok []
  | j :: rest => do
      let d ← decodeDecision j
      let ds ← decodeDecisionList rest
      return d :: ds

/-- `DynamicPricingAgent.export_decisions`: `json.dump(self.decision_history)`
as the JSON structure written to the file. -/
def export_decisions (s : AgentState) : List (List (String × JField)) :=
  s.decision_history.map encodeDecision

/-- `DynamicPricingAgent.load_decisions`:
`self.decision_history = json.load(f)` — parse, then replace the history
wholesale, touching neither `self.stats` nor `self.config`. -/
def load_decisions (s : AgentState) (data : List (List (String × JField))) :
    Except String AgentState := do
  let ds ← decodeDecisionList data
  return { s with decision_history := ds }

/-! ### Closed forms of the rate components

When every required field is present, each fallible component evaluates
to `.ok` of a closed-form value.  The pure forms below are proved equal
to the embedded code; all claim statements are about the embedded code. -/

/-- Closed form of the country-specific credit-score normalization. -/
def normalized_score_pure (c : String) (cs : ℚ) : ℚ :=
  if c = "USA" then (cs - 300) / (850 - 300) else (cs - 300) / (900 - 300)

/-- Closed form of `_calculate_risk_adjustment`. -/
def risk_adjustment_pure (c : String) (cs inc la debt : ℚ) : ℚ :=
  let normalized_score := normalized_score_pure c cs
  let dti := debt / max inc 1
  let lti := la / max inc 1
  let risk_score :=
    (1 - normalized_score) * 0.5 + min dti 1.0 * 0.3 + min lti 1.0 * 0.2
  let adjustment := -0.03 + risk_score * 0.11
  adjustment

/-- Closed form of `_calculate_market_adjustment`. -/
def market_adjustment_pure (c : String) (cs : ℚ) : ℚ :=
  if c = "USA" then
    if cs ≥ 750 then -0.02 else if cs ≥ 700 then -0.01 else 0.0
  else
    if cs ≥ 800 then -0.02 else if cs ≥ 750 then -0.01 else 0.0

/-- Closed form of `_calculate_profit_adjustment`. -/
def profit_adjustment_pure (la : ℚ) : ℚ :=
  if la ≥ 25000 then -0.005 else if la ≥ 15000 then -0.0025 else 0.0

/-- Closed form of `_estimate_default_probability`. -/
def default_probability_pure (c : String) (cs inc debt : ℚ) : ℚ :=
  min (0.25 * (1 - normalized_score_pure c cs) + (debt / max inc 1) * 0.1) 0.99

/-- Closed form of `_generate_reasoning`. -/
def reasoning_pure (risk_adj market_adj profit_adj cs : ℚ)
    (c : String) : List String :=
  let r1 : List String :=
    if risk_adj < -0.01 then
      ["‚úÖ Excellent credit profile - reduced risk premium"]
    else if risk_adj > 0.05 then
      ["‚ö†Ô∏è Higher risk profile - increased rate for protection"]
    else
      ["Standard risk assessment"]
  let r2 := r1 ++ (if market_adj < 0 then
      ["üéØ Competitive rate to win quality applicant"] else [])
  let r3 := r2 ++ (if profit_adj < 0 then
      ["üí∞ Volume discount for larger loan amount"] else [])
  r3 ++
    (if c = "USA" then
      if cs ≥ 750 then ["Excellent FICO score (750+)"]
      else if cs < 650 then ["Below-average FICO score"]
      else []
    else
      if cs ≥ 800 then ["Excellent CIBIL score (800+)"]
      else if cs < 700 then ["Below-average CIBIL score"]
      else [])

/-- Closed form of the whole decision record built by `calculate_rate`. -/
def mkDecision (cfg : Config) (idOpt : Option String) (c : String)
    (cs inc la debt : ℚ) (now : String) : Decision :=
  let risk_adjustment := risk_adjustment_pure c cs inc la debt
  let market_adjustment := market_adjustment_pure c cs
  let profit_adjustment := profit_adjustment_pure la
  let total_adjustment :=
    risk_adjustment * cfg.risk_weight +
    market_adjustment * cfg.market_weight +
    profit_adjustment * cfg.profit_weight
  let final_rate := max min_rate (min max_rate (base_rates_get c + total_adjustment))
  let default_prob := default_probability_pure c cs inc debt
  { timestamp := now
    applicant_id := idOpt.getD "unknown"
    country := c
    credit_score := cs
    loan_amount := la
    base_rate := pyround (base_rates_get c) 4
    risk_adjustment := pyround risk_adjustment 4
    market_adjustment := pyround market_adjustment 4
    profit_adjustment := pyround profit_adjustment 4
    total_adjustment := pyround total_adjustment 4
    final_rate := pyround final_rate 4
    default_probability := pyround default_prob 4
    expected_profit := pyround (calculate_expected_profit la final_rate default_prob) 2
    reasoning := reasoning_pure risk_adjustment market_adjustment
      profit_adjustment cs c }

@[simp] lemma except_bind_ok {ε α β : Type} (a : α) (f : α → Except ε β) :
    (Except.ok a >>= f) = f a := rfl

@[simp] lemma except_bind_error {ε α β : Type} (e : ε) (f : α → Except ε β) :
    ((Except.error e : Except ε α) >>= f) = Except.error e := rfl

@[simp] lemma except_pure_eq {ε α : Type} (a : α) :
    (pure a : Except ε α) = Except.ok a := rfl

@[simp] lemma except_map_ok {ε α β : Type} (f : α → β) (a : α) :
    (f <$> (Except.ok a : Except ε α)) = Except.ok (f a) := rfl

@[simp] lemma except_map_error {ε α β : Type} (f : α → β) (e : ε) :
    (f <$> (Except.error e : Except ε α)) = Except.error e := rfl

lemma max_one_pos (x : ℚ) : (0 : ℚ) < max x 1 :=
  lt_of_lt_of_le one_pos (le_max_right x 1)

lemma max_one_ne_zero (x : ℚ) : max x 1 ≠ 0 :=
  ne_of_gt (max_one_pos x)

lemma calculate_risk_adjustment_eq (a : Applicant) {c : String}
    {cs inc la : ℚ} (hc : a.country = some c) (hcs : a.credit_score = some cs)
    (hinc : a.income = some inc) (hla : a.loan_amount = some la) :
    calculate_risk_adjustment a =
      .ok (risk_adjustment_pure c cs inc la (a.existing_debt.getD 0)) := by
  have h1 : max inc 1 ≠ 0 := max_one_ne_zero inc
  have h550 : ¬((850 : ℚ) - 300 = 0) := by norm_num
  have h600 : ¬((900 : ℚ) - 300 = 0) := by norm_num
  rcases eq_or_ne c "USA" with h | h <;>
    simp [calculate_risk_adjustment, risk_adjustment_pure,
      normalized_score_pure, getField, hc, hcs, hinc, hla, pydiv,
      h1, h550, h600, h]

lemma calculate_market_adjustment_eq (a : Applicant) {c : String}
    {cs : ℚ} (hc : a.country = some c) (hcs : a.credit_score = some cs) :
    calculate_market_adjustment a = .ok (market_adjustment_pure c cs) := by
  simp only [calculate_market_adjustment, market_adjustment_pure,
    getField, hc, hcs, except_bind_ok, except_pure_eq]
  split_ifs <;> rfl

lemma calculate_profit_adjustment_eq (a : Applicant) {la : ℚ}
    (hla : a.loan_amount = some la) :
    calculate_profit_adjustment a = .ok (profit_adjustment_pure la) := by
  simp only [calculate_profit_adjustment, profit_adjustment_pure, getField,
    hla, except_bind_ok, except_pure_eq]
  split_ifs <;> rfl

lemma estimate_default_probability_eq (a : Applicant) {c : String}
    {cs inc : ℚ} (hc : a.country = some c) (hcs : a.credit_score = some cs)
    (hinc : a.income = some inc) :
    estimate_default_probability a =
      .ok (default_probability_pure c cs inc (a.existing_debt.getD 0)) := by
  have h1 : max inc 1 ≠ 0 := max_one_ne_zero inc
  have h550 : ¬((850 : ℚ) - 300 = 0) := by norm_num
  have h600 : ¬((900 : ℚ) - 300 = 0) := by norm_num
  rcases eq_or_ne c "USA" with h | h <;>
    simp [estimate_default_probability, default_probability_pure,
      normalized_score_pure, getField, hc, hcs, hinc, pydiv, h1, h550, h600, h]

lemma generate_reasoning_eq (r m p : ℚ) (a : Applicant) {c : String}
    {cs : ℚ} (hc : a.country = some c) (hcs : a.credit_score = some cs) :
    generate_reasoning r m p a = .ok (reasoning_pure r m p cs c) := by
  simp [generate_reasoning, reasoning_pure, getField, hc, hcs]

/-- With every required field present, `calculate_rate` succeeds and
returns exactly the closed-form decision record. -/
lemma calculate_rate_eq (cfg : Config) (a : Applicant) (now : String)
    {c : String} {cs inc la : ℚ}
    (hc : a.country = some c) (hcs : a.credit_score = some cs)
    (hinc : a.income = some inc) (hla : a.loan_amount = some la) :
    calculate_rate cfg a now =
      .ok (mkDecision cfg a.id c cs inc la (a.existing_debt.getD 0) now) := by
  simp [calculate_rate, getField, hc, hcs, hla, mkDecision,
    calculate_risk_adjustment_eq a hc hcs hinc hla,
    calculate_market_adjustment_eq a hc hcs,
    calculate_profit_adjustment_eq a hla,
    estimate_default_probability_eq a hc hcs hinc,
    generate_reasoning_eq _ _ _ a hc hcs]

/-! ### Rounding bounds -/

lemma round_mono_rat {x y : ℚ} (h : x ≤ y) : round x ≤ round y := by
  rw [round_eq, round_eq]
  exact Int.floor_le_floor (by linarith)

lemma pyround_mono {x y : ℚ} (n : ℕ) (h : x ≤ y) :
    pyround x n ≤ pyround y n := by
  unfold pyround
  have h10 : (0 : ℚ) < 10 ^ n := by positivity
  have hr : round (x * 10 ^ n) ≤ round (y * 10 ^ n) :=
    round_mono_rat (mul_le_mul_of_nonneg_right h (le_of_lt h10))
  exact (div_le_div_iff_of_pos_right h10).mpr (by exact_mod_cast hr)

lemma pyround_intdiv (k : ℤ) (n : ℕ) :
    pyround ((k : ℚ) / 10 ^ n) n = (k : ℚ) / 10 ^ n := by
  unfold pyround
  rw [div_mul_cancel₀ _ (by positivity : (10 : ℚ) ^ n ≠ 0), round_intCast]

lemma pyround_bounded {x : ℚ} (n : ℕ) (k1 k2 : ℤ)
    (h1 : (k1 : ℚ) / 10 ^ n ≤ x) (h2 : x ≤ (k2 : ℚ) / 10 ^ n) :
    (k1 : ℚ) / 10 ^ n ≤ pyround x n ∧ pyround x n ≤ (k2 : ℚ) / 10 ^ n :=
  ⟨(pyround_intdiv k1 n).symm.trans_le (pyround_mono n h1),
   (pyround_mono n h2).trans_eq (pyround_intdiv k2 n)⟩

/-- The clamped-and-rounded final rate always stays inside
`[min_rate, max_rate]`. -/
lemma pyround_clamp_bounds (z : ℚ) :
    (0.08 : ℚ) ≤ pyround (max min_rate (min max_rate z)) 4 ∧
      pyround (max min_rate (min max_rate z)) 4 ≤ 0.36 := by
  have h1 : ((800 : ℤ) : ℚ) / 10 ^ 4 ≤ max min_rate (min max_rate z) := by
    have : ((800 : ℤ) : ℚ) / 10 ^ 4 = min_rate := by norm_num [min_rate]
    rw [this]
    exact le_max_left _ _
  have h2 : max min_rate (min max_rate z) ≤ ((3600 : ℤ) : ℚ) / 10 ^ 4 := by
    apply max_le
    · norm_num [min_rate]
    · exact le_trans (min_le_left _ _) (by norm_num [max_rate])
  have hb := pyround_bounded 4 800 3600 h1 h2
  constructor
  · exact le_trans (by norm_num) hb.1
  · exact le_trans hb.2 (by norm_num)

/-! ### Missing-field behaviour -/

lemma calculate_rate_missing_country {cfg : Config} {a : Applicant}
    {now : String} (hc : a.country = none) :
    calculate_rate cfg a now = .error (.keyError "country") := by
  simp [calculate_rate, getField, hc]

lemma calculate_rate_missing_credit_score {cfg : Config} {a : Applicant}
    {now : String} {c : String} (hc : a.country = some c)
    (hcs : a.credit_score = none) :
    calculate_rate cfg a now = .error (.keyError "credit_score") := by
  simp [calculate_rate, calculate_risk_adjustment, getField, hc, hcs]

lemma calculate_risk_adjustment_missing_income {a : Applicant} {c : String}
    {cs : ℚ} (hc : a.country = some c) (hcs : a.credit_score = some cs)
    (hinc : a.income = none) :
    calculate_risk_adjustment a = .error (.keyError "income") := by
  have h550 : ¬((850 : ℚ) - 300 = 0) := by norm_num
  have h600 : ¬((900 : ℚ) - 300 = 0) := by norm_num
  rcases eq_or_ne c "USA" with h | h <;>
    simp [calculate_risk_adjustment, getField, hc, hcs, hinc, pydiv,
      h550, h600, h]

lemma calculate_risk_adjustment_missing_loan {a : Applicant} {c : String}
    {cs inc : ℚ} (hc : a.country = some c) (hcs : a.credit_score = some cs)
    (hinc : a.income = some inc) (hla : a.loan_amount = none) :
    calculate_risk_adjustment a = .error (.keyError "loan_amount") := by
  have h550 : ¬((850 : ℚ) - 300 = 0) := by norm_num
  have h600 : ¬((900 : ℚ) - 300 = 0) := by norm_num
  have h1 : max inc 1 ≠ 0 := max_one_ne_zero inc
  rcases eq_or_ne c "USA" with h | h <;>
    simp [calculate_risk_adjustment, getField, hc, hcs, hinc, hla, pydiv,
      h550, h600, h1, h]

lemma calculate_rate_missing_income {cfg : Config} {a : Applicant}
    {now : String} {c : String} {cs : ℚ} (hc : a.country = some c)
    (hcs : a.credit_score = some cs) (hinc : a.income = none) :
    calculate_rate cfg a now = .error (.keyError "income") := by
  simp [calculate_rate, getField, hc,
    calculate_risk_adjustment_missing_income hc hcs hinc]

lemma calculate_rate_missing_loan {cfg : Config} {a : Applicant}
    {now : String} {c : String} {cs inc : ℚ} (hc : a.country = some c)
    (hcs : a.credit_score = some cs) (hinc : a.income = some inc)
    (hla : a.loan_amount = none) :
    calculate_rate cfg a now = .error (.keyError "loan_amount") := by
  simp [calculate_rate, getField, hc,
    calculate_risk_adjustment_missing_loan hc hcs hinc hla]

/-- A successful `calculate_rate` call implies every required field was
present. -/
lemma calculate_rate_ok_fields {cfg : Config} {a : Applicant} {now : String}
    {d : Decision} (h : calculate_rate cfg a now = .ok d) :
    ∃ c cs inc la, a.country = some c ∧ a.credit_score = some cs ∧
      a.income = some inc ∧ a.loan_amount = some la := by
  cases hc : a.country with
  | none => rw [calculate_rate_missing_country hc] at h; exact absurd h (by simp)
  | some c =>
    cases hcs : a.credit_score with
    | none =>
      rw [calculate_rate_missing_credit_score hc hcs] at h
      exact absurd h (by simp)
    | some cs =>
      cases hinc : a.income with
      | none =>
        rw [calculate_rate_missing_income hc hcs hinc] at h
        exact absurd h (by simp)
      | some inc =>
        cases hla : a.loan_amount with
        | none =>
          rw [calculate_rate_missing_loan hc hcs hinc hla] at h
          exact absurd h (by simp)
        | some la => exact ⟨c, cs, inc, la, rfl, rfl, rfl, rfl⟩


/-! ### Ledger evolution -/

lemma foldl_log_decision_history (ds : List Decision) (s : AgentState) :
    (ds.foldl log_decision s).decision_history = s.decision_history ++ ds := by
  induction ds generalizing s with
  | nil => simp
  | cons d rest ih =>
    rw [List.foldl_cons, ih]
    simp [log_decision]

lemma foldl_log_decision_total_decisions (ds : List Decision) (s : AgentState) :
    (ds.foldl log_decision s).stats.total_decisions =
      s.stats.total_decisions + ds.length := by
  induction ds generalizing s with
  | nil => simp
  | cons d rest ih =>
    rw [List.foldl_cons, ih]
    simp [log_decision]
    omega

lemma foldl_log_decision_total_profit (ds : List Decision) (s : AgentState) :
    (ds.foldl log_decision s).stats.total_profit =
      s.stats.total_profit + (ds.map (fun d => d.expected_profit)).sum := by
  induction ds generalizing s with
  | nil => simp
  | cons d rest ih =>
    rw [List.foldl_cons, ih]
    simp [log_decision]
    ring

/-! ### Serialization round trip -/

lemma decodeDecision_encodeDecision (d : Decision) :
    decodeDecision (encodeDecision d) = .ok d := by
  cases d
  rfl

lemma decodeDecisionList_map_encode (ds : List Decision) :
    decodeDecisionList (ds.map encodeDecision) = .ok ds := by
  induction ds with
  | nil => rfl
  | cons d rest ih =>
    simp [decodeDecisionList, decodeDecision_encodeDecision d, ih]

/-! ### Default-probability bounds -/

lemma normalized_score_pure_bounds {c : String} {cs : ℚ}
    (hrange : if c = "USA" then 300 ≤ cs ∧ cs ≤ 850
              else 300 ≤ cs ∧ cs ≤ 900) :
    0 ≤ normalized_score_pure c cs ∧ normalized_score_pure c cs ≤ 1 := by
  unfold normalized_score_pure
  split_ifs at hrange ⊢ with h
  · constructor
    · apply div_nonneg
      · linarith [hrange.1]
      · norm_num
    · rw [div_le_one (by norm_num : (0 : ℚ) < 850 - 300)]
      linarith [hrange.2]
  · constructor
    · apply div_nonneg
      · linarith [hrange.1]
      · norm_num
    · rw [div_le_one (by norm_num : (0 : ℚ) < 900 - 300)]
      linarith [hrange.2]

lemma default_probability_pure_bounds (inc : ℚ) {c : String} {cs debt : ℚ}
    (hdebt : 0 ≤ debt)
    (hrange : if c = "USA" then 300 ≤ cs ∧ cs ≤ 850
              else 300 ≤ cs ∧ cs ≤ 900) :
    0 ≤ default_probability_pure c cs inc debt ∧
      default_probability_pure c cs inc debt ≤ 0.99 := by
  have hns := normalized_score_pure_bounds hrange
  have hdti : 0 ≤ debt / max inc 1 :=
    div_nonneg hdebt (le_of_lt (max_one_pos inc))
  unfold default_probability_pure
  refine ⟨le_min (by nlinarith [hns.1, hns.2]) (by norm_num), min_le_right _ _⟩

lemma pyround_prob_bounds {x : ℚ} (h0 : 0 ≤ x) (h99 : x ≤ 0.99) :
    0 ≤ pyround x 4 ∧ pyround x 4 ≤ 0.99 := by
  have hb := pyround_bounded 4 0 9900
    (by simpa using h0) (by push_cast; norm_num; linarith)
  constructor
  · simpa using hb.1
  · have : ((9900 : ℤ) : ℚ) / 10 ^ 4 = 0.99 := by norm_num
    linarith [hb.2, this.le]

/-! ### Concrete fixtures (the example applicant from the source file and
variants with one required field removed) -/

/-- The USA example applicant from the source's `__main__` block. -/
def usa_applicant : Applicant :=
  { id := some "USA_001", country := some "USA", credit_score := some 720,
    income := some 85000, loan_amount := some 15000,
    employment_years := some 5, existing_debt := some 12000 }

def no_country_applicant : Applicant :=
  { usa_applicant with country := none }

def no_credit_applicant : Applicant :=
  { usa_applicant with credit_score := none }

def no_income_applicant : Applicant :=
  { usa_applicant with income := none }

def no_loan_applicant : Applicant :=
  { usa_applicant with loan_amount := none }

/-- The decision `calculate_rate` produces for `usa_applicant` under the
default config (all fields written as the exact rationals the embedding
computes). -/
def usa_decision : Decision :=
  { timestamp := "t"
    applicant_id := "USA_001"
    country := "USA"
    credit_score := 720
    loan_amount := 15000
    base_rate := 0.12
    risk_adjustment := -0.0085
    market_adjustment := -0.01
    profit_adjustment := -0.0025
    total_adjustment := -0.0083
    final_rate := 0.1117
    default_probability := 0.0732
    expected_profit := 1113.24
    reasoning := ["Standard risk assessment",
                  "üéØ Competitive rate to win quality applicant",
                  "üí∞ Volume discount for larger loan amount"] }

/-- Is the outcome the spec's `MissingFieldError`? -/
def is_missing_field_result : Except PyError Decision → Bool
  | .error (.missingFieldError _) => true
  | _ => false

/-- Concrete evaluation of the embedding on the source's USA example
applicant (matches the spec's Scenario A numbers). -/
lemma calculate_rate_usa_example :
    calculate_rate default_config usa_applicant "t" = .ok usa_decision := by
  rw [calculate_rate_eq default_config usa_applicant "t" rfl rfl rfl rfl]
  refine congrArg Except.ok ?_
  simp only [mkDecision, risk_adjustment_pure, market_adjustment_pure,
    profit_adjustment_pure, default_probability_pure, normalized_score_pure,
    reasoning_pure, base_rates_get, calculate_expected_profit, pyround,
    min_rate, max_rate, usa_applicant, usa_decision, default_config]
  norm_num [round_eq, Decision.mk.injEq]

/-! ### Claims -/

/-- Claim C1: for every applicant record that pricing succeeds on, the
`final_rate` field of the returned decision lies in
`[min_rate, max_rate] = [0.08, 0.36]`: the base rate plus the weighted
sum of the three adjustments is clamped to these bounds before being
stored in the decision. -/
theorem C1_final_rate_within_bounds {cfg : Config} {a : Applicant}
    {now : String} {d : Decision} (h : calculate_rate cfg a now = .ok d) :
    (0.08 : ℚ) ≤ d.final_rate ∧ d.final_rate ≤ 0.36 := by
  obtain ⟨c, cs, inc, la, hc, hcs, hinc, hla⟩ := calculate_rate_ok_fields h
  have he := (calculate_rate_eq cfg a now hc hcs hinc hla).symm.trans h
  injection he with he
  subst he
  simp only [mkDecision]
  exact pyround_clamp_bounds _

/-- Witness for C1 at the source's USA example applicant. -/
theorem C1_final_rate_within_bounds_witness :
    calculate_rate default_config usa_applicant "t" = .ok usa_decision ∧
      ((0.08 : ℚ) ≤ usa_decision.final_rate ∧
        usa_decision.final_rate ≤ 0.36) :=
  ⟨calculate_rate_usa_example,
    C1_final_rate_within_bounds calculate_rate_usa_example⟩

/-- Claim C2 (counterexample): on an applicant whose `country` key is
absent, `calculate_rate` surfaces the generic lookup fault
`KeyError("country")`, not a `MissingFieldError`. -/
theorem C2_counterexample_keyerror_not_missingfield :
    calculate_rate default_config no_country_applicant "t" =
      .error (.keyError "country") ∧
    is_missing_field_result
      (calculate_rate default_config no_country_applicant "t") = false := by
  exact ⟨rfl, rfl⟩

/-- Claim C2 (amended): when a required applicant field (`country`,
`credit_score`, `income`, or `loan_amount`) is absent from the input
record, `calculate_rate` fails with the generic lookup fault
`KeyError` naming the missing field (the first one reached in access
order); no `MissingFieldError` exists in the code. -/
theorem C2_missing_field_raises_keyerror (cfg : Config) (a : Applicant)
    (now : String) :
    (a.country = none →
      calculate_rate cfg a now = .error (.keyError "country")) ∧
    (∀ c, a.country = some c → a.credit_score = none →
      calculate_rate cfg a now = .error (.keyError "credit_score")) ∧
    (∀ c cs, a.country = some c → a.credit_score = some cs →
      a.income = none →
      calculate_rate cfg a now = .error (.keyError "income")) ∧
    (∀ c cs inc, a.country = some c → a.credit_score = some cs →
      a.income = some inc → a.loan_amount = none →
      calculate_rate cfg a now = .error (.keyError "loan_amount")) := by
  refine ⟨fun hc => calculate_rate_missing_country hc,
    fun c hc hcs => calculate_rate_missing_credit_score hc hcs,
    fun c cs hc hcs hinc => calculate_rate_missing_income hc hcs hinc,
    fun c cs inc hc hcs hinc hla =>
      calculate_rate_missing_loan hc hcs hinc hla⟩

/-- Witness for the amended C2: each required field removed in turn from
the USA example applicant. -/
theorem C2_missing_field_raises_keyerror_witness :
    calculate_rate default_config no_country_applicant "t" =
      .error (.keyError "country") ∧
    calculate_rate default_config no_credit_applicant "t" =
      .error (.keyError "credit_score") ∧
    calculate_rate default_config no_income_applicant "t" =
      .error (.keyError "income") ∧
    calculate_rate default_config no_loan_applicant "t" =
      .error (.keyError "loan_amount") :=
  ⟨(C2_missing_field_raises_keyerror default_config no_country_applicant "t").1
      rfl,
   (C2_missing_field_raises_keyerror default_config no_credit_applicant "t").2.1
      "USA" rfl rfl,
   (C2_missing_field_raises_keyerror default_config no_income_applicant
      "t").2.2.1 "USA" 720 rfl rfl rfl,
   (C2_missing_field_raises_keyerror default_config no_loan_applicant
      "t").2.2.2 "USA" 720 85000 rfl rfl rfl rfl⟩

/-- Claim C3: for every valid applicant (credit score within the
country's declared range, income and existing debt non-negative), the
`default_probability` of the returned decision satisfies
`0 ≤ default_probability ≤ 0.99`; the embedded formula clamps only the
upper bound (`min _ 0.99`), and no lower-bound clamp is applied. -/
theorem C3_default_probability_bounds (cfg : Config) (a : Applicant)
    (now : String) {c : String} {cs inc la : ℚ}
    (hc : a.country = some c) (hcs : a.credit_score = some cs)
    (hinc : a.income = some inc) (hla : a.loan_amount = some la)
    (hinc0 : 0 ≤ inc) (hdebt : 0 ≤ a.existing_debt.getD 0)
    (hrange : if c = "USA" then 300 ≤ cs ∧ cs ≤ 850
              else 300 ≤ cs ∧ cs ≤ 900) :
    ∃ d, calculate_rate cfg a now = .ok d ∧
      0 ≤ d.default_probability ∧ d.default_probability ≤ 0.99 := by
  refine ⟨_, calculate_rate_eq cfg a now hc hcs hinc hla, ?_⟩
  simp only [mkDecision]
  have hb := default_probability_pure_bounds inc hdebt hrange
  exact pyround_prob_bounds hb.1 hb.2

/-- Witness for C3 at the source's USA example applicant. -/
theorem C3_default_probability_bounds_witness :
    ∃ d, calculate_rate default_config usa_applicant "t" = .ok d ∧
      0 ≤ d.default_probability ∧ d.default_probability ≤ 0.99 :=
  C3_default_probability_bounds default_config usa_applicant "t"
    rfl rfl rfl rfl (by decide) (by decide) (by decide)

/-- Claim C4: after more than 100 decisions have been appended,
`get_statistics()` returns the mean `total_adjustment`, mean `final_rate`
and mean `default_probability` over only the most recent 100 decisions
(`decision_history[-100:]`), while `total_decisions` and
`total_expected_profit` are cumulative over every decision ever appended
(profit is never windowed). -/
theorem C4_windowed_statistics (cfg : Config) (ds : List Decision)
    (h : 100 < ds.length) :
    get_statistics (ds.foldl log_decision (init_state cfg)) =
      [("total_decisions", (ds.length : ℚ)),
       ("avg_rate_adjustment",
         pyround (npmean ((ds.drop (ds.length - 100)).map
           (fun d => d.total_adjustment))) 4),
       ("avg_final_rate",
         pyround (npmean ((ds.drop (ds.length - 100)).map
           (fun d => d.final_rate))) 4),
       ("total_expected_profit",
         pyround ((ds.map (fun d => d.expected_profit)).sum) 2),
       ("avg_default_probability",
         pyround (npmean ((ds.drop (ds.length - 100)).map
           (fun d => d.default_probability))) 4)] := by
  have hh : (List.foldl log_decision (init_state cfg) ds).decision_history
      = ds := by
    rw [foldl_log_decision_history]
    simp [init_state]
  have ht : (List.foldl log_decision (init_state cfg) ds).stats.total_decisions
      = ds.length := by
    rw [foldl_log_decision_total_decisions]
    simp [init_state]
  have hp : (List.foldl log_decision (init_state cfg) ds).stats.total_profit
      = (ds.map (fun d => d.expected_profit)).sum := by
    rw [foldl_log_decision_total_profit]
    simp [init_state]
  have hne : ds ≠ [] := by
    intro e
    rw [e] at h
    simp at h
  simp [get_statistics, hh, ht, hp, hne]

/-- Witness for C4 with 101 appended copies of the example decision. -/
theorem C4_windowed_statistics_witness :
    100 < (List.replicate 101 usa_decision).length ∧
    get_statistics ((List.replicate 101 usa_decision).foldl log_decision
        (init_state default_config)) =
      [("total_decisions", ((List.replicate 101 usa_decision).length : ℚ)),
       ("avg_rate_adjustment",
         pyround (npmean (((List.replicate 101 usa_decision).drop
           ((List.replicate 101 usa_decision).length - 100)).map
           (fun d => d.total_adjustment))) 4),
       ("avg_final_rate",
         pyround (npmean (((List.replicate 101 usa_decision).drop
           ((List.replicate 101 usa_decision).length - 100)).map
           (fun d => d.final_rate))) 4),
       ("total_expected_profit",
         pyround (((List.replicate 101 usa_decision).map
           (fun d => d.expected_profit)).sum) 2),
       ("avg_default_probability",
         pyround (npmean (((List.replicate 101 usa_decision).drop
           ((List.replicate 101 usa_decision).length - 100)).map
           (fun d => d.default_probability))) 4)] :=
  ⟨by simp, C4_windowed_statistics default_config _ (by simp)⟩

/-- Claim C5: exporting the decision history and importing the exported
data reconstructs a decision history whose records equal the original
records field-for-field (the whole agent state after the import is the
importing agent's state with its history replaced by the exported one). -/
theorem C5_export_import_roundtrip (s t : AgentState) :
    load_decisions t (export_decisions s) =
      .ok { t with decision_history := s.decision_history } := by
  simp [load_decisions, export_decisions, decodeDecisionList_map_encode]

/-- Claim C6: `load_decisions` replaces the in-memory decision history
entirely with the loaded sequence (no merging), and leaves the config and
every field of the running stats — `total_decisions`, `avg_adjustment`,
`total_profit`, `default_rate` — unchanged; in particular
`total_decisions` and `total_profit` are not recomputed from the restored
sequence. -/
theorem C6_load_replaces_history_keeps_stats (s : AgentState)
    (ds : List Decision) :
    load_decisions s (ds.map encodeDecision) =
      .ok { config := s.config, decision_history := ds, stats := s.stats } := by
  simp [load_decisions, decodeDecisionList_map_encode]

/-- Claim C7: for every applicant record whose required fields are
present and numeric — including zero income, zero debt, zero loan amount
and out-of-range credit scores — `calculate_rate` raises no arithmetic
error: it returns a decision (`max income 1` shields both divisions). -/
theorem C7_no_arithmetic_error (cfg : Config) (a : Applicant)
    (now : String) {c : String} {cs inc la : ℚ}
    (hc : a.country = some c) (hcs : a.credit_score = some cs)
    (hinc : a.income = some inc) (hla : a.loan_amount = some la) :
    ∃ d, calculate_rate cfg a now = .ok d :=
  ⟨_, calculate_rate_eq cfg a now hc hcs hinc hla⟩

/-- An applicant with zero income, zero loan, zero debt and an
out-of-range credit score. -/
def zero_income_applicant : Applicant :=
  { id := none, country := some "USA", credit_score := some 2000,
    income := some 0, loan_amount := some 0, employment_years := none,
    existing_debt := some 0 }

/-- Witness for C7 at the zero-income, out-of-range applicant. -/
theorem C7_no_arithmetic_error_witness :
    ∃ d, calculate_rate default_config zero_income_applicant "t" = .ok d :=
  C7_no_arithmetic_error default_config zero_income_applicant "t"
    rfl rfl rfl rfl

/-- Claim C8: for the USA applicant {credit_score=720, income=85000,
loan_amount=15000, existing_debt=12000} under the default config,
`calculate_rate` stores base_rate = 0.12, market_adjustment = −0.01
(700 ≤ 720 < 750), profit_adjustment = −0.0025 (the 15000 threshold is
inclusive), risk_adjustment = −0.0085, total_adjustment = −0.0083
(≈ −0.00835 before rounding), final_rate = 0.1117, within the rate
bounds. -/
theorem C8_scenario_A :
    ∃ d, calculate_rate default_config usa_applicant "t" = .ok d ∧
      d.base_rate = 0.12 ∧ d.market_adjustment = -0.01 ∧
      d.profit_adjustment = -0.0025 ∧ d.risk_adjustment = -0.0085 ∧
      d.total_adjustment = -0.0083 ∧ d.final_rate = 0.1117 ∧
      0.08 ≤ d.final_rate ∧ d.final_rate ≤ 0.36 :=
  ⟨usa_decision, calculate_rate_usa_example, rfl, rfl, rfl, rfl, rfl, rfl,
    by norm_num [usa_decision], by norm_num [usa_decision]⟩

/-- Claim C9: for every applicant whose country string is neither "USA"
nor "India", `calculate_rate` uses the neutral base rate 0.15, and every
country-dependent branch — the credit-score normalization (CIBIL bounds
300–900), the market-adjustment thresholds (800/750) and the
default-probability normalization — takes the non-USA fallback branch
rather than failing. -/
theorem C9_unknown_country_fallback (cfg : Config) (a : Applicant)
    (now : String) {c : String} {cs inc la : ℚ}
    (hc : a.country = some c) (hcs : a.credit_score = some cs)
    (hinc : a.income = some inc) (hla : a.loan_amount = some la)
    (hUSA : c ≠ "USA") (hIndia : c ≠ "India") :
    ∃ d, calculate_rate cfg a now = .ok d ∧
      d.base_rate = 0.15 ∧
      d.risk_adjustment = pyround (-0.03 +
        ((1 - (cs - 300) / (900 - 300)) * 0.5 +
          min (a.existing_debt.getD 0 / max inc 1) 1.0 * 0.3 +
          min (la / max inc 1) 1.0 * 0.2) * 0.11) 4 ∧
      d.market_adjustment = pyround
        (if cs ≥ 800 then -0.02 else if cs ≥ 750 then -0.01 else 0.0) 4 ∧
      d.default_probability = pyround
        (min (0.25 * (1 - (cs - 300) / (900 - 300)) +
          (a.existing_debt.getD 0 / max inc 1) * 0.1) 0.99) 4 := by
  refine ⟨_, calculate_rate_eq cfg a now hc hcs hinc hla, ?_, ?_, ?_, ?_⟩
  · simp only [mkDecision, base_rates_get, if_neg hUSA, if_neg hIndia]
    norm_num [pyround, round_eq]
  · simp [mkDecision, risk_adjustment_pure, normalized_score_pure, hUSA]
  · simp [mkDecision, market_adjustment_pure, hUSA]
  · simp [mkDecision, default_probability_pure, normalized_score_pure, hUSA]

/-- An applicant from an unrecognized market. -/
def brazil_applicant : Applicant :=
  { id := none, country := some "Brazil", credit_score := some 760,
    income := some 50000, loan_amount := some 10000,
    employment_years := none, existing_debt := some 5000 }

/-- Witness for C9 at the unknown-country applicant. -/
theorem C9_unknown_country_fallback_witness :
    ∃ d, calculate_rate default_config brazil_applicant "t" = .ok d ∧
      d.base_rate = 0.15 ∧
      d.risk_adjustment = pyround (-0.03 +
        ((1 - ((760 : ℚ) - 300) / (900 - 300)) * 0.5 +
          min (brazil_applicant.existing_debt.getD 0 / max (50000 : ℚ) 1)
            1.0 * 0.3 +
          min ((10000 : ℚ) / max (50000 : ℚ) 1) 1.0 * 0.2) * 0.11) 4 ∧
      d.market_adjustment = pyround
        (if (760 : ℚ) ≥ 800 then -0.02
         else if (760 : ℚ) ≥ 750 then -0.01 else 0.0) 4 ∧
      d.default_probability = pyround
        (min (0.25 * (1 - ((760 : ℚ) - 300) / (900 - 300)) +
          (brazil_applicant.existing_debt.getD 0 / max (50000 : ℚ) 1) * 0.1)
          0.99) 4 :=
  C9_unknown_country_fallback default_config brazil_applicant "t"
    rfl rfl rfl rfl (by decide) (by decide)

/-- Claim C10: when the decision history is empty, `get_statistics()`
does not fail: it returns the stats record — initially all zero — whose
keys are `total_decisions`, `avg_adjustment`, `total_profit`,
`default_rate`; with a non-empty history it returns the different key set
`total_decisions`, `avg_rate_adjustment`, `avg_final_rate`,
`total_expected_profit`, `avg_default_probability`. -/
theorem C10_statistics_key_sets (cfg : Config) :
    (∀ s : AgentState, s.decision_history = [] →
      get_statistics s =
        [("total_decisions", (s.stats.total_decisions : ℚ)),
         ("avg_adjustment", s.stats.avg_adjustment),
         ("total_profit", s.stats.total_profit),
         ("default_rate", s.stats.default_rate)]) ∧
    get_statistics (init_state cfg) =
      [("total_decisions", 0), ("avg_adjustment", 0),
       ("total_profit", 0), ("default_rate", 0)] ∧
    (∀ s : AgentState, s.decision_history ≠ [] →
      (get_statistics s).map Prod.fst =
        ["total_decisions", "avg_rate_adjustment", "avg_final_rate",
         "total_expected_profit", "avg_default_probability"]) := by
  refine ⟨?_, ?_, ?_⟩
  · intro s hs
    simp [get_statistics, hs]
  · simp [get_statistics, init_state]
  · intro s hs
    simp [get_statistics, hs]

/-- A state with one logged decision. -/
def nonempty_state : AgentState :=
  { config := default_config
    decision_history := [usa_decision]
    stats := { total_decisions := 1, avg_adjustment := -0.0083,
               total_profit := 1113.24, default_rate := 0 } }

/-- Witness for C10: the fresh agent and a one-decision agent. -/
theorem C10_statistics_key_sets_witness :
    get_statistics (init_state default_config) =
      [("total_decisions",
        ((init_state default_config).stats.total_decisions : ℚ)),
       ("avg_adjustment", (init_state default_config).stats.avg_adjustment),
       ("total_profit", (init_state default_config).stats.total_profit),
       ("default_rate", (init_state default_config).stats.default_rate)] ∧
    (get_statistics nonempty_state).map Prod.fst =
      ["total_decisions", "avg_rate_adjustment", "avg_final_rate",
       "total_expected_profit", "avg_default_probability"] :=
  ⟨(C10_statistics_key_sets default_config).1 (init_state default_config) rfl,
   (C10_statistics_key_sets default_config).2.2 nonempty_state
     (by simp [nonempty_state])⟩

end CreditAI
